import Mathlib

/-!
Shallow embedding of `src/backend/wikipedia-data-ingestion/src/data_extraction.py`
(`WikipediaDataExtractor`), together with models of the external collaborators
the module calls into: the environment (`os.environ`), the Hugging Face
dataset source (`datasets.load_dataset` / `Dataset.select`), the Azure blob
storage SDK (`BlobServiceClient` and friends) and the JSON library
(`json.dumps(..., ensure_ascii=False)` / `json.loads`).

Python values that can appear as the fields of an article record follow the
repository's data model: string fields (`id`, `title`, `url`, `text`) and an
optional `categories` field holding a sequence of strings.  Exceptions are
modelled with `Except`; logging is a pure side effect and is not modelled.
-/

deriving instance DecidableEq for Except

/-- A JSON-serializable field value of an article record: a string, or a
sequence of strings (the `categories` field). -/
inductive Json where
  | str : String → Json
  | arr : List String → Json
deriving DecidableEq

/-- An article record: a Python `dict` in insertion order, keys backed by
strings.  Produced by the dataset source. -/
abbrev Article := List (String × Json)

/-- A dynamically typed Python value passed where the code expects an article
`dict`: either an actual mapping, or some non-mapping value tagged with the
name of its type (on which attribute access such as `.get` raises). -/
inductive PyVal where
  | dict : Article → PyVal
  | nonDict : String → PyVal
deriving DecidableEq

/-- Python exceptions that the embedded code can raise or observe. -/
inductive PyErr where
  | attributeError (onType : String) (attr : String)
  | typeError (onType : String)
  | keyError (key : String)
  | valueError (arg : String)
  | indexError
  | datasetError (msg : String)
  | storageError (op : String)
deriving DecidableEq

/-- The process environment (`os.environ`), a finite map from variable names
to string values. -/
structure Env where
  vars : List (String × String)
deriving DecidableEq

/-- `os.environ.get(key)`: the value of the variable, or `none` if unset. -/
def Env.get (e : Env) (key : String) : Option String :=
  e.vars.lookup key

/-- `article.get(key, default)`.  On a `dict` this is a total lookup with a
default; on a non-mapping value attribute access raises `AttributeError`. -/
def pyGet (a : PyVal) (key : String) (dflt : Json) : Except PyErr Json :=
  match a with
  | .dict m => .ok ((m.lookup key).getD dflt)
  | .nonDict t => .error (.attributeError t "get")

/-- `key in article`.  On a non-container value Python raises `TypeError`. -/
def pyContains (a : PyVal) (key : String) : Except PyErr Bool :=
  match a with
  | .dict m => .ok (m.lookup key).isSome
  | .nonDict t => .error (.typeError t)

/-- `article[key]`: raises `KeyError` when absent, `TypeError` when the value
is not subscriptable. -/
def pyGetItem (a : PyVal) (key : String) : Except PyErr Json :=
  match a with
  | .dict m =>
    match m.lookup key with
    | some v => .ok v
    | none => .error (.keyError key)
  | .nonDict t => .error (.typeError t)

/-- Models Python `int(s)` on the canonical non-negative digit strings used
for the `WIKIPEDIA_SAMPLE_SIZE` variable: the parsed number when `s` is a
non-empty digit string, `none` (a `ValueError`) otherwise. -/
def pyNat? (s : String) : Option Nat :=
  if s.data ≠ [] ∧ s.data.all (·.isDigit) then
    some (s.data.foldl (fun acc c => acc * 10 + (c.toNat - 48)) 0)
  else none

/-- The configuration captured by `WikipediaDataExtractor.__init__`: exactly
the three fields the constructor assigns (`self.logger` is a pure logging
handle and is not modelled). -/
structure WikipediaDataExtractor where
  dataset_name : String
  subset : String
  sample_size : Nat
deriving DecidableEq

/-- `WikipediaDataExtractor.__init__`, reading the construction-time
environment.  `int(...)` raises `ValueError` on a malformed sample size. -/
def WikipediaDataExtractor.init (env : Env) : Except PyErr WikipediaDataExtractor :=
  let dataset_name := (env.get "WIKIPEDIA_DATASET_NAME").getD "wikimedia/wikipedia"
  let subset := (env.get "WIKIPEDIA_SUBSET").getD "20220301.en"
  let sizeStr := (env.get "WIKIPEDIA_SAMPLE_SIZE").getD "1000"
  match pyNat? sizeStr with
  | some n => .ok { dataset_name := dataset_name, subset := subset, sample_size := n }
  | none => .error (.valueError sizeStr)

/-- Models `datasets.Dataset.select(range(n))`: the contiguous prefix of the
first `n` records when all indices are in range, and an out-of-range error
(the library raises) when `n` exceeds the number of records. -/
def datasetSelect (ds : List Article) (n : Nat) : Except PyErr (List Article) :=
  if n ≤ ds.length then .ok (ds.take n) else .error .indexError

/-- `WikipediaDataExtractor.load_wikipedia_subset`.  The external
`load_dataset` collaborator is passed as a function of the dataset name, the
subset and the split; the method calls it with `self.dataset_name`,
`self.subset` and the fixed split `"train"`, selects `range(sample_size)` and
materializes the result.  The `except` clause logs and re-raises. -/
def load_wikipedia_subset (self : WikipediaDataExtractor) (sample_size : Option Nat)
    (load_dataset : String → String → String → Except PyErr (List Article)) :
    Except PyErr (List Article) :=
  let n := sample_size.getD self.sample_size
  match load_dataset self.dataset_name self.subset "train" >>= (datasetSelect · n) with
  | .ok articles => .ok articles
  | .error e => .error e

/-- The body of `extract_metadata` (the code inside its `try`): builds the
metadata dict in insertion order and copies `categories` only when present.
`now` is the value of `datetime.datetime.utcnow().isoformat()`. -/
def extract_metadata_body (article : PyVal) (now : String) : Except PyErr Article := do
  let i ← pyGet article "id" (.str "")
  let t ← pyGet article "title" (.str "")
  let u ← pyGet article "url" (.str "")
  let metadata := [("id", i), ("title", t), ("url", u), ("last_updated", Json.str now)]
  let hasCats ← pyContains article "categories"
  if hasCats then
    let cats ← pyGetItem article "categories"
    pure (metadata ++ [("categories", cats)])
  else
    pure metadata

/-- `WikipediaDataExtractor.extract_metadata`: the `except` clause logs the
error and re-raises it unchanged. -/
def extract_metadata (article : PyVal) (now : String) : Except PyErr Article :=
  match extract_metadata_body article now with
  | .ok m => .ok m
  | .error e => .error e

/-! ## JSON serialization: `json.dumps(article, ensure_ascii=False)`

Python's `json.dumps` with default separators renders a dict as
`{"k": v, "k2": v2}` in insertion order.  With `ensure_ascii=False` a string
is escaped minimally: `"` and `\` get a backslash, the control characters
BS, TAB, LF, FF, CR get their short escapes, the remaining characters below
U+0020 become `\u00XX` (lowercase hex), and every other character — in
particular every non-ASCII character — is emitted literally. -/

/-- The lowercase hexadecimal digit for `n < 16`. -/
def hexDig (n : Nat) : Char :=
  if n < 10 then Char.ofNat (48 + n) else Char.ofNat (87 + n)

/-- JSON escaping of one character under `ensure_ascii=False`. -/
def escChar (c : Char) : List Char :=
  if c = '"' then ['\\', '"']
  else if c = '\\' then ['\\', '\\']
  else if c = '\n' then ['\\', 'n']
  else if c = '\r' then ['\\', 'r']
  else if c = '\t' then ['\\', 't']
  else if c.toNat = 8 then ['\\', 'b']
  else if c.toNat = 12 then ['\\', 'f']
  else if c.toNat < 32 then ['\\', 'u', '0', '0', hexDig (c.toNat / 16), hexDig (c.toNat % 16)]
  else [c]

/-- JSON escaping of a character sequence. -/
def escList : List Char → List Char
  | [] => []
  | c :: rest => escChar c ++ escList rest

/-- A JSON string literal: `"` + escaped content + `"`. -/
def dumpStr (s : String) : List Char :=
  '"' :: escList s.data ++ ['"']

/-- The `", "`-separated items after the first element of a JSON array. -/
def dumpArrItems : List String → List Char
  | [] => []
  | s :: rest => ',' :: ' ' :: dumpStr s ++ dumpArrItems rest

/-- A JSON array of strings with Python's default `", "` separator. -/
def dumpArr : List String → List Char
  | [] => ['[', ']']
  | s :: rest => '[' :: dumpStr s ++ dumpArrItems rest ++ [']']

/-- Serialization of one field value. -/
def dumpVal : Json → List Char
  | .str s => dumpStr s
  | .arr l => dumpArr l

/-- One `"key": value` member with Python's default `": "` separator. -/
def dumpPair (p : String × Json) : List Char :=
  dumpStr p.1 ++ ':' :: ' ' :: dumpVal p.2

/-- The `", "`-separated members after the first member of a JSON object. -/
def dumpPairsRest : Article → List Char
  | [] => []
  | p :: rest => ',' :: ' ' :: dumpPair p ++ dumpPairsRest rest

/-- A JSON object in insertion order. -/
def dumpObj : Article → List Char
  | [] => ['{', '}']
  | p :: rest => '{' :: dumpPair p ++ dumpPairsRest rest ++ ['}']

/-- `json.dumps(article, ensure_ascii=False)` on an article dict. -/
def json_dumps (a : Article) : String :=
  ⟨dumpObj a⟩

/-! ## JSON parsing: `json.loads`, restricted to the article data model

A recursive-descent model of `json.loads` on texts denoting an object whose
values are strings or arrays of strings (the shape `json.dumps` produces for
an article record).  Any other input is rejected with `none`.  The loop over
object members and array items is driven by a fuel argument bounded below by
the input length. -/

/-- JSON insignificant whitespace. -/
def isJsonWs (c : Char) : Bool :=
  c = ' ' ∨ c = '\t' ∨ c = '\n' ∨ c = '\r'

/-- Skip insignificant whitespace. -/
def skipWs : List Char → List Char
  | [] => []
  | c :: rest => if isJsonWs c then skipWs rest else c :: rest

/-- The value of a hexadecimal digit character, if it is one. -/
def hexVal? (c : Char) : Option Nat :=
  if '0' ≤ c ∧ c ≤ '9' then some (c.toNat - 48)
  else if 'a' ≤ c ∧ c ≤ 'f' then some (c.toNat - 87)
  else if 'A' ≤ c ∧ c ≤ 'F' then some (c.toNat - 55)
  else none

/-- The character denoted by a single-character JSON escape. -/
def unescChar? (e : Char) : Option Char :=
  if e = '"' then some '"'
  else if e = '\\' then some '\\'
  else if e = '/' then some '/'
  else if e = 'n' then some '\n'
  else if e = 'r' then some '\r'
  else if e = 't' then some '\t'
  else if e = 'b' then some (Char.ofNat 8)
  else if e = 'f' then some (Char.ofNat 12)
  else none

/-- Parse the body of a string literal after the opening quote, returning the
decoded content and the input after the closing quote. -/
def parseStrBody : List Char → Option (List Char × List Char)
  | [] => none
  | c :: rest =>
    if c = '"' then some ([], rest)
    else if c = '\\' then
      match rest with
      | [] => none
      | e :: rest2 =>
        if e = 'u' then
          match rest2 with
          | h1 :: h2 :: h3 :: h4 :: rest3 =>
            match hexVal? h1, hexVal? h2, hexVal? h3, hexVal? h4 with
            | some a, some b, some c3, some d =>
              (parseStrBody rest3).map
                (fun p => (Char.ofNat (((a * 16 + b) * 16 + c3) * 16 + d) :: p.1, p.2))
            | _, _, _, _ => none
          | _ => none
        else
          match unescChar? e with
          | some c2 => (parseStrBody rest2).map (fun p => (c2 :: p.1, p.2))
          | none => none
    else (parseStrBody rest).map (fun p => (c :: p.1, p.2))

/-- Parse a string literal starting at the opening quote. -/
def parseJStr : List Char → Option (String × List Char)
  | [] => none
  | c :: rest =>
    if c = '"' then (parseStrBody rest).map (fun p => (⟨p.1⟩, p.2)) else none

/-- Parse the items after the first item of an array, up to `]`. -/
def parseArrItems : Nat → List Char → Option (List String × List Char)
  | 0, _ => none
  | fuel + 1, l =>
    match skipWs l with
    | [] => none
    | c :: rest =>
      if c = ']' then some ([], rest)
      else if c = ',' then
        match parseJStr (skipWs rest) with
        | some (s, rest2) => (parseArrItems fuel rest2).map (fun p => (s :: p.1, p.2))
        | none => none
      else none

/-- Parse an array of strings starting at `[`. -/
def parseJArr (fuel : Nat) (l : List Char) : Option (List String × List Char) :=
  match l with
  | [] => none
  | c :: rest =>
    if c = '[' then
      match skipWs rest with
      | [] => none
      | c2 :: rest2 =>
        if c2 = ']' then some ([], rest2)
        else
          match parseJStr (c2 :: rest2) with
          | some (s, rest3) => (parseArrItems fuel rest3).map (fun p => (s :: p.1, p.2))
          | none => none
    else none

/-- Parse a field value: a string or an array of strings. -/
def parseJVal (fuel : Nat) (l : List Char) : Option (Json × List Char) :=
  match l with
  | [] => none
  | c :: rest =>
    if c = '"' then (parseJStr (c :: rest)).map (fun p => (Json.str p.1, p.2))
    else if c = '[' then (parseJArr fuel (c :: rest)).map (fun p => (Json.arr p.1, p.2))
    else none

/-- Parse one `"key": value` member. -/
def parsePair (fuel : Nat) (l : List Char) : Option ((String × Json) × List Char) :=
  match parseJStr l with
  | some (k, rest) =>
    match skipWs rest with
    | [] => none
    | c :: rest2 =>
      if c = ':' then
        match parseJVal fuel (skipWs rest2) with
        | some (v, rest3) => some ((k, v), rest3)
        | none => none
      else none
  | none => none

/-- Parse the members after the first member of an object, up to `}`. -/
def parsePairsRest : Nat → List Char → Option (Article × List Char)
  | 0, _ => none
  | fuel + 1, l =>
    match skipWs l with
    | [] => none
    | c :: rest =>
      if c = '}' then some ([], rest)
      else if c = ',' then
        match parsePair fuel (skipWs rest) with
        | some (p, rest2) => (parsePairsRest fuel rest2).map (fun q => (p :: q.1, q.2))
        | none => none
      else none

/-- Parse an object starting at `{`. -/
def parseObj (fuel : Nat) (l : List Char) : Option (Article × List Char) :=
  match l with
  | [] => none
  | c :: rest =>
    if c = '{' then
      match skipWs rest with
      | [] => none
      | c2 :: rest2 =>
        if c2 = '}' then some ([], rest2)
        else
          match parsePair fuel (c2 :: rest2) with
          | some (p, rest3) => (parsePairsRest fuel rest3).map (fun q => (p :: q.1, q.2))
          | none => none
    else none

/-- `json.loads`, restricted to texts denoting an article record; any
remaining non-whitespace input is an error. -/
def json_loads (s : String) : Option Article :=
  match parseObj (s.data.length + 1) (skipWs s.data) with
  | some (m, rest) => if skipWs rest = [] then some m else none
  | none => none

/-! ## Serialization/parsing roundtrip lemmas -/

theorem hexVal?_hexDig : ∀ d, d < 16 → hexVal? (hexDig d) = some d := by decide

theorem parseStrBody_escList (l rest : List Char) :
    parseStrBody (escList l ++ '"' :: rest) = some (l, rest) := by
  induction l with
  | nil => rw [escList, List.nil_append, parseStrBody.eq_def]; simp
  | cons c cs ih =>
    rw [show escList (c :: cs) ++ '"' :: rest = escChar c ++ (escList cs ++ '"' :: rest) from
      by simp [escList]]
    by_cases hq : c = '"'
    · subst hq
      rw [show escChar '"' ++ (escList cs ++ '"' :: rest) =
            '\\' :: '"' :: (escList cs ++ '"' :: rest) from by simp [escChar]]
      rw [parseStrBody.eq_def]; simp [unescChar?, ih]
    by_cases hbs : c = '\\'
    · subst hbs
      rw [show escChar '\\' ++ (escList cs ++ '"' :: rest) =
            '\\' :: '\\' :: (escList cs ++ '"' :: rest) from by simp [escChar]]
      rw [parseStrBody.eq_def]; simp [unescChar?, ih]
    by_cases hn : c = '\n'
    · subst hn
      rw [show escChar '\n' ++ (escList cs ++ '"' :: rest) =
            '\\' :: 'n' :: (escList cs ++ '"' :: rest) from by simp [escChar]]
      rw [parseStrBody.eq_def]; simp [unescChar?, ih]
    by_cases hr : c = '\r'
    · subst hr
      rw [show escChar '\r' ++ (escList cs ++ '"' :: rest) =
            '\\' :: 'r' :: (escList cs ++ '"' :: rest) from by simp [escChar]]
      rw [parseStrBody.eq_def]; simp [unescChar?, ih]
    by_cases ht : c = '\t'
    · subst ht
      rw [show escChar '\t' ++ (escList cs ++ '"' :: rest) =
            '\\' :: 't' :: (escList cs ++ '"' :: rest) from by simp [escChar]]
      rw [parseStrBody.eq_def]; simp [unescChar?, ih]
    by_cases h8 : c.toNat = 8
    · have hc : Char.ofNat 8 = c := by rw [← h8, Char.ofNat_toNat]
      rw [show escChar c ++ (escList cs ++ '"' :: rest) =
            '\\' :: 'b' :: (escList cs ++ '"' :: rest) from
        by simp [escChar, hq, hbs, hn, hr, ht, h8]]
      rw [parseStrBody.eq_def]; simp [unescChar?, ih]; exact hc
    by_cases h12 : c.toNat = 12
    · have hc : Char.ofNat 12 = c := by rw [← h12, Char.ofNat_toNat]
      rw [show escChar c ++ (escList cs ++ '"' :: rest) =
            '\\' :: 'f' :: (escList cs ++ '"' :: rest) from
        by simp [escChar, hq, hbs, hn, hr, ht, h8, h12]]
      rw [parseStrBody.eq_def]; simp [unescChar?, ih]; exact hc
    by_cases h32 : c.toNat < 32
    · rw [show escChar c ++ (escList cs ++ '"' :: rest) =
            '\\' :: 'u' :: '0' :: '0' :: hexDig (c.toNat / 16) :: hexDig (c.toNat % 16) ::
              (escList cs ++ '"' :: rest) from
        by simp [escChar, hq, hbs, hn, hr, ht, h8, h12, h32]]
      rw [parseStrBody.eq_def]
      simp [hexVal?_hexDig _ (by omega : c.toNat / 16 < 16),
        hexVal?_hexDig _ (by omega : c.toNat % 16 < 16),
        show hexVal? '0' = some 0 from by decide, ih]
      rw [show c.toNat / 16 * 16 + c.toNat % 16 = c.toNat from by omega, Char.ofNat_toNat]
    · rw [show escChar c ++ (escList cs ++ '"' :: rest) =
            c :: (escList cs ++ '"' :: rest) from
        by simp [escChar, hq, hbs, hn, hr, ht, h8, h12, h32]]
      rw [parseStrBody.eq_def]; simp [hq, hbs, ih]

theorem parseJStr_dumpStr (s : String) (rest : List Char) :
    parseJStr (dumpStr s ++ rest) = some (s, rest) := by
  simp [dumpStr, parseJStr, parseStrBody_escList]

/-- The size of a value, counting list items: a lower bound for the fuel the
parser loops need. -/
def valSize : Json → Nat
  | .str _ => 0
  | .arr l => l.length

/-- The fuel an object of the given members needs. -/
def pairsFuel (m : Article) : Nat :=
  m.length + (m.map (fun p => valSize p.2)).sum

theorem dumpStr_cons (s : String) (X : List Char) :
    dumpStr s ++ X = '"' :: (escList s.data ++ '"' :: X) := by
  simp [dumpStr]

theorem dumpPair_cons (p : String × Json) (X : List Char) :
    dumpPair p ++ X = '"' :: (escList p.1.data ++ '"' :: ':' :: ' ' :: (dumpVal p.2 ++ X)) := by
  simp [dumpPair, dumpStr]

theorem skipWs_dumpStr (s : String) (X : List Char) :
    skipWs (dumpStr s ++ X) = dumpStr s ++ X := by
  rw [dumpStr_cons]; simp [skipWs, isJsonWs]

theorem skipWs_dumpPair (p : String × Json) (X : List Char) :
    skipWs (dumpPair p ++ X) = dumpPair p ++ X := by
  rw [dumpPair_cons]; simp [skipWs, isJsonWs]

theorem skipWs_dumpVal (v : Json) (X : List Char) :
    skipWs (dumpVal v ++ X) = dumpVal v ++ X := by
  cases v with
  | str s => exact skipWs_dumpStr s X
  | arr l => cases l <;> simp [dumpVal, dumpArr, skipWs, isJsonWs]

theorem parseArrItems_dumpArrItems (items : List String) (X : List Char) (fuel : Nat)
    (h : items.length < fuel) :
    parseArrItems fuel (dumpArrItems items ++ ']' :: X) = some (items, X) := by
  induction items generalizing X fuel with
  | nil =>
    cases fuel with
    | zero => omega
    | succ fuel =>
      rw [dumpArrItems, List.nil_append, parseArrItems.eq_def]
      simp [skipWs, isJsonWs]
  | cons s items ih =>
    cases fuel with
    | zero => omega
    | succ fuel =>
      have h' : items.length < fuel := by simp at h; omega
      rw [show dumpArrItems (s :: items) ++ ']' :: X =
            ',' :: ' ' :: (dumpStr s ++ (dumpArrItems items ++ ']' :: X)) from
        by simp [dumpArrItems]]
      rw [parseArrItems.eq_def]
      simp [skipWs, isJsonWs, skipWs_dumpStr]
      rw [← dumpStr_cons, parseJStr_dumpStr]
      simp [ih X fuel h']

theorem parseJArr_dumpArr (l : List String) (X : List Char) (fuel : Nat)
    (h : l.length ≤ fuel) :
    parseJArr fuel (dumpArr l ++ X) = some (l, X) := by
  cases l with
  | nil =>
    rw [show dumpArr [] ++ X = '[' :: ']' :: X from by simp [dumpArr]]
    rw [parseJArr.eq_def]; simp [skipWs, isJsonWs]
  | cons s items =>
    have h' : items.length < fuel := by simp at h; omega
    rw [show dumpArr (s :: items) ++ X =
          '[' :: (dumpStr s ++ (dumpArrItems items ++ ']' :: X)) from by simp [dumpArr]]
    rw [parseJArr.eq_def, dumpStr_cons]
    simp [skipWs, isJsonWs]
    rw [← dumpStr_cons, parseJStr_dumpStr]
    simp [parseArrItems_dumpArrItems items X fuel h']

theorem parseJVal_dumpVal (v : Json) (X : List Char) (fuel : Nat)
    (h : valSize v ≤ fuel) :
    parseJVal fuel (dumpVal v ++ X) = some (v, X) := by
  cases v with
  | str s =>
    rw [show dumpVal (Json.str s) ++ X = '"' :: (escList s.data ++ '"' :: X) from
      by simp [dumpVal, dumpStr]]
    rw [parseJVal.eq_def]
    simp [skipWs, isJsonWs]
    rw [← dumpStr_cons, parseJStr_dumpStr]
  | arr l =>
    have h' : l.length ≤ fuel := by simpa [valSize] using h
    cases l with
    | nil =>
      rw [show dumpVal (Json.arr []) ++ X = '[' :: ']' :: X from by simp [dumpVal, dumpArr]]
      rw [parseJVal.eq_def]
      simp [skipWs, isJsonWs]
      rw [show ('[' :: ']' :: X : List Char) = dumpArr [] ++ X from by simp [dumpArr]]
      rw [parseJArr_dumpArr [] X fuel (by simp)]
    | cons s items =>
      rw [show dumpVal (Json.arr (s :: items)) ++ X =
            '[' :: (dumpStr s ++ (dumpArrItems items ++ ']' :: X)) from
        by simp [dumpVal, dumpArr]]
      rw [parseJVal.eq_def]
      simp [skipWs, isJsonWs]
      rw [show ('[' :: (dumpStr s ++ (dumpArrItems items ++ ']' :: X)) : List Char) =
            dumpArr (s :: items) ++ X from by simp [dumpArr]]
      rw [parseJArr_dumpArr (s :: items) X fuel h']

theorem parsePair_dumpPair (p : String × Json) (X : List Char) (fuel : Nat)
    (h : valSize p.2 ≤ fuel) :
    parsePair fuel (dumpPair p ++ X) = some (p, X) := by
  obtain ⟨k, v⟩ := p
  rw [show dumpPair (k, v) ++ X = dumpStr k ++ (':' :: ' ' :: (dumpVal v ++ X)) from
    by simp [dumpPair]]
  rw [parsePair.eq_def, parseJStr_dumpStr]
  simp [skipWs, isJsonWs, skipWs_dumpVal, parseJVal_dumpVal v X fuel h]

theorem parsePairsRest_dumpPairsRest (ps : Article) (X : List Char) (fuel : Nat)
    (h : pairsFuel ps < fuel) :
    parsePairsRest fuel (dumpPairsRest ps ++ '}' :: X) = some (ps, X) := by
  induction ps generalizing X fuel with
  | nil =>
    cases fuel with
    | zero => omega
    | succ fuel =>
      rw [dumpPairsRest, List.nil_append, parsePairsRest.eq_def]
      simp [skipWs, isJsonWs]
  | cons p ps ih =>
    cases fuel with
    | zero => omega
    | succ fuel =>
      have hv : valSize p.2 ≤ fuel := by simp [pairsFuel] at h; omega
      have hps : pairsFuel ps < fuel := by simp [pairsFuel] at h ⊢; omega
      rw [show dumpPairsRest (p :: ps) ++ '}' :: X =
            ',' :: ' ' :: (dumpPair p ++ (dumpPairsRest ps ++ '}' :: X)) from
        by simp [dumpPairsRest]]
      rw [parsePairsRest.eq_def]
      simp [skipWs, isJsonWs, skipWs_dumpPair]
      rw [← dumpPair_cons, parsePair_dumpPair p (dumpPairsRest ps ++ '}' :: X) fuel hv]
      simp [ih X fuel hps]

theorem parseObj_dumpObj (m : Article) (X : List Char) (fuel : Nat)
    (h : pairsFuel m < fuel) :
    parseObj fuel (dumpObj m ++ X) = some (m, X) := by
  cases m with
  | nil =>
    rw [show dumpObj [] ++ X = '{' :: '}' :: X from by simp [dumpObj]]
    rw [parseObj.eq_def]; simp [skipWs, isJsonWs]
  | cons p ps =>
    have hv : valSize p.2 ≤ fuel := by simp [pairsFuel] at h; omega
    have hps : pairsFuel ps < fuel := by simp [pairsFuel] at h ⊢; omega
    rw [show dumpObj (p :: ps) ++ X =
          '{' :: (dumpPair p ++ (dumpPairsRest ps ++ '}' :: X)) from by simp [dumpObj]]
    rw [parseObj.eq_def, dumpPair_cons]
    simp [skipWs, isJsonWs]
    rw [← dumpPair_cons, parsePair_dumpPair p (dumpPairsRest ps ++ '}' :: X) fuel hv]
    simp [parsePairsRest_dumpPairsRest ps X fuel hps]

theorem length_dumpArrItems (items : List String) :
    items.length ≤ (dumpArrItems items).length := by
  induction items with
  | nil => simp [dumpArrItems]
  | cons s items ih => simp [dumpArrItems]; omega

theorem valSize_le_dumpVal (v : Json) : valSize v ≤ (dumpVal v).length := by
  cases v with
  | str s => simp [valSize]
  | arr l =>
    cases l with
    | nil => simp [valSize, dumpVal, dumpArr]
    | cons s items =>
      have := length_dumpArrItems items
      simp [valSize, dumpVal, dumpArr]
      omega

theorem pairsFuel_le_dumpPairsRest (ps : Article) :
    pairsFuel ps ≤ (dumpPairsRest ps).length := by
  induction ps with
  | nil => simp [pairsFuel, dumpPairsRest]
  | cons p ps ih =>
    have h1 := valSize_le_dumpVal p.2
    simp [pairsFuel, dumpPairsRest, dumpPair] at *
    omega

theorem pairsFuel_lt_dumpObj (m : Article) : pairsFuel m < (dumpObj m).length + 1 := by
  cases m with
  | nil => simp [pairsFuel, dumpObj]
  | cons p ps =>
    have h1 := valSize_le_dumpVal p.2
    have h2 := pairsFuel_le_dumpPairsRest ps
    simp [pairsFuel, dumpObj, dumpPair] at *
    omega

theorem skipWs_dumpObj (m : Article) : skipWs (dumpObj m) = dumpObj m := by
  cases m <;> simp [dumpObj, skipWs, isJsonWs]

theorem json_loads_json_dumps (m : Article) : json_loads (json_dumps m) = some m := by
  rw [json_loads]
  rw [show (json_dumps m).data = dumpObj m from rfl]
  rw [skipWs_dumpObj]
  nth_rewrite 2 [show dumpObj m = dumpObj m ++ [] from by simp]
  rw [parseObj_dumpObj m [] ((dumpObj m).length + 1) (pairsFuel_lt_dumpObj m)]
  simp [skipWs]

/-- With `ensure_ascii=False`, every non-ASCII character is emitted
literally, never escaped. -/
theorem escChar_nonascii (c : Char) (hc : 128 ≤ c.toNat) : escChar c = [c] := by
  unfold escChar
  rw [if_neg (fun h => absurd (h ▸ hc) (by decide)),
    if_neg (fun h => absurd (h ▸ hc) (by decide)),
    if_neg (fun h => absurd (h ▸ hc) (by decide)),
    if_neg (fun h => absurd (h ▸ hc) (by decide)),
    if_neg (fun h => absurd (h ▸ hc) (by decide)),
    if_neg (by omega), if_neg (by omega), if_neg (by omega)]

/-! ## Blob storage model and `save_to_blob_storage` -/

/-- One call into the Azure blob storage SDK, as observed by the service. -/
inductive StorageCall where
  | fromConnectionString (cs : String)
  | getContainerClient (container : String)
  | existsCheck (container : String)
  | createContainer (container : String)
  | getBlobClient (blob : String)
  | uploadBlob (container : String) (blob : String) (data : String)
deriving DecidableEq

/-- The state of the blob store: containers by name, each a map from blob
name to uploaded payload. -/
structure BlobStore where
  containers : List (String × List (String × String))
deriving DecidableEq

/-- Whether a container exists (`container_client.exists()`). -/
def BlobStore.hasContainer (st : BlobStore) (name : String) : Bool :=
  (st.containers.lookup name).isSome

/-- `container_client.create_container()`. -/
def BlobStore.createContainer (st : BlobStore) (name : String) : BlobStore :=
  ⟨st.containers ++ [(name, [])]⟩

/-- Insert-or-overwrite in an association list. -/
def upsert (l : List (String × String)) (k v : String) : List (String × String) :=
  match l with
  | [] => [(k, v)]
  | (k2, v2) :: rest => if k2 = k then (k, v) :: rest else (k2, v2) :: upsert rest k v

/-- `blob_client.upload_blob(data, overwrite=True)`: store the payload under
the blob name in the container, overwriting any existing blob. -/
def BlobStore.upload (st : BlobStore) (container blob data : String) : BlobStore :=
  ⟨st.containers.map (fun p => if p.1 = container then (p.1, upsert p.2 blob data) else p)⟩

/-- The payload stored under a blob name, if any. -/
def BlobStore.getBlob (st : BlobStore) (container blob : String) : Option String :=
  (st.containers.lookup container).bind (fun blobs => blobs.lookup blob)

/-- Which storage SDK calls fail by raising (connection trouble, service
errors): one flag per call site inside the `try` block. -/
structure StorageFaults where
  connFail : Bool
  existsFail : Bool
  createFail : Bool
  uploadFail : Bool
deriving DecidableEq

/-- The fault assignment under which every storage call succeeds. -/
def noFaults : StorageFaults :=
  ⟨false, false, false, false⟩

/-- Models Python `str(x)` as applied by the f-string to the fetched `id`
value: the identity on strings; on a list, the `repr`-style rendering (exact
for strings without quote or escape characters — article ids are plain
strings in practice). -/
def pyStrOfJson : Json → String
  | .str s => s
  | .arr l => "[" ++ String.intercalate ", " (l.map (fun s => "'" ++ s ++ "'")) ++ "]"

/-- Models Python `s.replace(' ', '_')`: every occurrence of the
single-character pattern is replaced. -/
def replaceSpaces (s : String) : String :=
  ⟨s.data.map (fun c => if c = ' ' then '_' else c)⟩

/-- The blob-name computation of `save_to_blob_storage` (line 116):
`f"{article.get('id', 'unknown')}-{article.get('title', 'untitled').replace(' ', '_')}.json"`.
`.get` raises on a non-mapping article; `.replace` raises `AttributeError`
when the fetched title value is not a string. -/
def blobNameOf (article : PyVal) : Except PyErr String := do
  let i ← pyGet article "id" (.str "unknown")
  let t ← pyGet article "title" (.str "untitled")
  match t with
  | .str ts => pure (pyStrOfJson i ++ "-" ++ replaceSpaces ts ++ ".json")
  | .arr _ => .error (.attributeError "list" "replace")

/-- `json.dumps` applied to the dynamically typed article value.  In the
`save_to_blob_storage` flow the article is always a dict by the time this
runs (the blob-name computation has already raised otherwise); a non-dict is
modelled as a serialization `TypeError`. -/
def pyvalDumps (article : PyVal) : Except PyErr String :=
  match article with
  | .dict m => .ok (json_dumps m)
  | .nonDict t => .error (.typeError t)

/-- The outcome of the `try` block of `save_to_blob_storage`: the raised
exception if any, the resulting storage state, and the SDK calls made. -/
structure TryResult where
  err : Option PyErr
  store : BlobStore
  calls : List StorageCall
deriving DecidableEq

/-- The `try` block of `save_to_blob_storage` (lines 105–128), step by step:
client construction, container-existence check, container creation when
absent, blob-name computation, serialization, upload. -/
def saveTry (article : PyVal) (container_name cs : String) (store : BlobStore)
    (f : StorageFaults) : TryResult :=
  let calls0 := [StorageCall.fromConnectionString cs]
  if f.connFail then ⟨some (.storageError "from_connection_string"), store, calls0⟩ else
  let calls1 := calls0 ++ [StorageCall.getContainerClient container_name]
  let calls2 := calls1 ++ [StorageCall.existsCheck container_name]
  if f.existsFail then ⟨some (.storageError "exists"), store, calls2⟩ else
  let step :=
    if store.hasContainer container_name then
      TryResult.mk none store calls2
    else
      let calls3 := calls2 ++ [StorageCall.createContainer container_name]
      if f.createFail then ⟨some (.storageError "create_container"), store, calls3⟩
      else ⟨none, store.createContainer container_name, calls3⟩
  match step.err with
  | some e => ⟨some e, step.store, step.calls⟩
  | none =>
    match blobNameOf article with
    | .error e => ⟨some e, step.store, step.calls⟩
    | .ok blob_name =>
      let calls4 := step.calls ++ [StorageCall.getBlobClient blob_name]
      match pyvalDumps article with
      | .error e => ⟨some e, step.store, calls4⟩
      | .ok article_json =>
        let calls5 := calls4 ++ [StorageCall.uploadBlob container_name blob_name article_json]
        if f.uploadFail then ⟨some (.storageError "upload_blob"), step.store, calls5⟩
        else ⟨none, step.store.upload container_name blob_name article_json, calls5⟩

/-- The result of `save_to_blob_storage`: the returned boolean, the
resulting storage state, and the SDK calls made. -/
structure SaveResult where
  ok : Bool
  store : BlobStore
  calls : List StorageCall
deriving DecidableEq

/-- `WikipediaDataExtractor.save_to_blob_storage`.  The container-name
default and the connection string are read from the call-time environment
(`env`); a missing or empty connection string returns `False` before any SDK
call; the `except` clause converts any exception from the `try` block into a
`False` return.  `self` contributes only its logger and is unused. -/
def save_to_blob_storage (env : Env) (self : WikipediaDataExtractor) (article : PyVal)
    (container_name? : Option String) (store : BlobStore) (f : StorageFaults) : SaveResult :=
  let container_name :=
    container_name?.getD ((env.get "AZURE_STORAGE_CONTAINER_NAME").getD "wikipedia-raw")
  match env.get "AZURE_STORAGE_CONNECTION_STRING" with
  | none => ⟨false, store, []⟩
  | some cs =>
    if cs = "" then ⟨false, store, []⟩
    else
      let t := saveTry article container_name cs store f
      match t.err with
      | none => ⟨true, t.store, t.calls⟩
      | some _ => ⟨false, t.store, t.calls⟩

/-! ## Storage lemmas -/

theorem lookup_upsert (l : List (String × String)) (k v : String) :
    (upsert l k v).lookup k = some v := by
  induction l with
  | nil => simp [upsert, List.lookup]
  | cons p rest ih =>
    by_cases hk : p.1 = k
    · simp [upsert, hk, List.lookup]
    · have hko : (k == p.1) = false := beq_eq_false_iff_ne.mpr (fun h => hk h.symm)
      simp [upsert, hk, List.lookup, hko, ih]

theorem lookup_map_upload (l : List (String × List (String × String))) (c b d : String)
    (h : (List.lookup c l).isSome = true) :
    (List.lookup c (l.map (fun p => if p.1 = c then (p.1, upsert p.2 b d) else p))).bind
      (fun blobs => List.lookup b blobs) = some d := by
  induction l with
  | nil => simp [List.lookup] at h
  | cons p rest ih =>
    obtain ⟨k, blobs⟩ := p
    by_cases hc : k = c
    · subst hc
      simp only [List.map_cons]
      simp [List.lookup, lookup_upsert]
    · have hcb : (c == k) = false := beq_eq_false_iff_ne.mpr (fun hh => hc hh.symm)
      simp only [List.lookup, hcb] at h
      simp only [List.map_cons]
      rw [show (if (k, blobs).1 = c then ((k, blobs).1, upsert (k, blobs).2 b d)
            else (k, blobs)) = (k, blobs) from by simp [hc]]
      simp only [List.lookup, hcb]
      exact ih h

theorem getBlob_upload (st : BlobStore) (c b d : String)
    (h : st.hasContainer c = true) :
    (st.upload c b d).getBlob c b = some d := by
  obtain ⟨l⟩ := st
  exact lookup_map_upload l c b d h

theorem lookup_append_self (l : List (String × List (String × String))) (c : String) :
    (List.lookup c (l ++ [(c, [])])).isSome = true := by
  induction l with
  | nil => simp [List.lookup]
  | cons p rest ih =>
    by_cases hc : c = p.1
    · simp [List.lookup, hc]
    · have hcb : (c == p.1) = false := beq_eq_false_iff_ne.mpr hc
      simp [List.lookup, hcb, ih]

theorem hasContainer_createContainer (st : BlobStore) (c : String) :
    (st.createContainer c).hasContainer c = true := by
  obtain ⟨l⟩ := st
  exact lookup_append_self l c

/-- Under the all-success fault assignment, the `try` block raises nothing
and the final store is the ensured container with the blob uploaded. -/
theorem saveTry_noFaults (a : PyVal) (cn cs : String) (st : BlobStore) (bn js : String)
    (hbn : blobNameOf a = .ok bn) (hdump : pyvalDumps a = .ok js) :
    (saveTry a cn cs st noFaults).err = none ∧
    (saveTry a cn cs st noFaults).store =
      (if st.hasContainer cn then st else st.createContainer cn).upload cn bn js := by
  by_cases hc : st.hasContainer cn <;>
    simp [saveTry, noFaults, hbn, hdump, hc]

/-! ## Claim theorems -/

/-- C3: the blob name computed by the save operation is a deterministic
function of exactly the article's `id` and `title` fields, equal to
`<id>-<title with every space replaced by an underscore>.json`, with
`"unknown"`/`"untitled"` substituted for absent `id`/`title`; in particular
`{id: "12345", title: "Sample Article 1"}` yields
`"12345-Sample_Article_1.json"` and `{}` yields `"unknown-untitled.json"`. -/
theorem c3_blob_name_deterministic :
    (∀ (m m2 : Article), m.lookup "id" = m2.lookup "id" →
      m.lookup "title" = m2.lookup "title" →
      blobNameOf (.dict m) = blobNameOf (.dict m2))
    ∧ (∀ (m : Article) (i t : String), m.lookup "id" = some (.str i) →
        m.lookup "title" = some (.str t) →
        blobNameOf (.dict m) = .ok (i ++ "-" ++ replaceSpaces t ++ ".json"))
    ∧ (∀ (m : Article), m.lookup "id" = none → m.lookup "title" = none →
        blobNameOf (.dict m) = .ok "unknown-untitled.json")
    ∧ blobNameOf (.dict [("id", .str "12345"), ("title", .str "Sample Article 1")]) =
        .ok "12345-Sample_Article_1.json"
    ∧ blobNameOf (.dict []) = .ok "unknown-untitled.json" := by
  refine ⟨?_, ?_, ?_, by decide, by decide⟩
  · intro m m2 h1 h2
    simp [blobNameOf, pyGet, h1, h2]
  · intro m i t h1 h2
    simp [blobNameOf, pyGet, h1, h2, pyStrOfJson, Bind.bind, Except.bind, pure, Except.pure]
  · intro m h1 h2
    simp [blobNameOf, pyGet, h1, h2, pyStrOfJson]
    decide

/-- C3 witness: the general blob-name formula evaluated at a concrete
article with a multi-space title. -/
theorem c3_blob_name_deterministic_witness :
    blobNameOf (.dict [("id", Json.str "7"), ("title", Json.str "A B C")]) =
      .ok ("7" ++ "-" ++ replaceSpaces "A B C" ++ ".json") :=
  c3_blob_name_deterministic.2.1 [("id", Json.str "7"), ("title", Json.str "A B C")]
    "7" "A B C" (by decide) (by decide)

/-- C4: for every mapping article, `extract_metadata` returns a record with
`id`, `title`, `url` copied with empty-string fallback, `last_updated`
stamped with the extraction-time timestamp (`now`), and a `categories` key
exactly when the input has one, copied verbatim. -/
theorem c4_extract_metadata_fields (m : Article) (now : String) :
    ∃ md, extract_metadata (.dict m) now = .ok md
      ∧ md.lookup "id" = some ((m.lookup "id").getD (.str ""))
      ∧ md.lookup "title" = some ((m.lookup "title").getD (.str ""))
      ∧ md.lookup "url" = some ((m.lookup "url").getD (.str ""))
      ∧ md.lookup "last_updated" = some (.str now)
      ∧ md.lookup "categories" = m.lookup "categories" := by
  cases hcat : m.lookup "categories" with
  | none =>
    refine ⟨[("id", (m.lookup "id").getD (.str "")), ("title", (m.lookup "title").getD (.str "")),
      ("url", (m.lookup "url").getD (.str "")), ("last_updated", .str now)],
      ?_, ?_, ?_, ?_, ?_, ?_⟩
    · simp [extract_metadata, extract_metadata_body, pyGet, pyContains, hcat,
        Bind.bind, Except.bind, pure, Except.pure]
    · simp [List.lookup]
    · simp [List.lookup]
    · simp [List.lookup]
    · simp [List.lookup]
    · simp [List.lookup]
  | some c =>
    refine ⟨[("id", (m.lookup "id").getD (.str "")), ("title", (m.lookup "title").getD (.str "")),
      ("url", (m.lookup "url").getD (.str "")), ("last_updated", .str now), ("categories", c)],
      ?_, ?_, ?_, ?_, ?_, ?_⟩
    · simp [extract_metadata, extract_metadata_body, pyGet, pyContains, pyGetItem, hcat,
        Bind.bind, Except.bind, pure, Except.pure]
    · simp [List.lookup]
    · simp [List.lookup]
    · simp [List.lookup]
    · simp [List.lookup]
    · simp [List.lookup]

/-- C6: with the connection string unset or empty, the save operation
returns `False` immediately: the store is untouched and no storage SDK call
is made. -/
theorem c6_missing_credential_no_calls (env : Env) (self : WikipediaDataExtractor)
    (article : PyVal) (container_name? : Option String) (st : BlobStore) (f : StorageFaults)
    (h : env.get "AZURE_STORAGE_CONNECTION_STRING" = none
       ∨ env.get "AZURE_STORAGE_CONNECTION_STRING" = some "") :
    save_to_blob_storage env self article container_name? st f = ⟨false, st, []⟩ := by
  rcases h with h | h <;> simp [save_to_blob_storage, h]

/-- C6 witness: a concrete environment with no connection string. -/
theorem c6_missing_credential_no_calls_witness :
    save_to_blob_storage ⟨[("AZURE_STORAGE_CONTAINER_NAME", "wikipedia-raw")]⟩
        ⟨"wikimedia/wikipedia", "20220301.en", 1000⟩ (.dict [("id", Json.str "1")]) none
        ⟨[("wikipedia-raw", [])]⟩ noFaults =
      ⟨false, ⟨[("wikipedia-raw", [])]⟩, []⟩ :=
  c6_missing_credential_no_calls _ _ _ _ _ _ (Or.inl (by decide))

/-- C8: dataset-source errors in `load_wikipedia_subset` and field-access
errors in `extract_metadata` are re-raised to the caller unchanged; in
particular a non-mapping input makes `extract_metadata` raise the
`AttributeError` from `.get`. -/
theorem c8_two_tier_errors :
    (∀ (self : WikipediaDataExtractor) (n : Option Nat)
        (load_dataset : String → String → String → Except PyErr (List Article)) (e : PyErr),
      load_dataset self.dataset_name self.subset "train" = .error e →
      load_wikipedia_subset self n load_dataset = .error e)
    ∧ (∀ (a : PyVal) (now : String) (e : PyErr),
        extract_metadata_body a now = .error e → extract_metadata a now = .error e)
    ∧ (∀ (t now : String),
        extract_metadata (.nonDict t) now = .error (.attributeError t "get")) := by
  refine ⟨?_, ?_, ?_⟩
  · intro self n ld e h
    simp [load_wikipedia_subset, h, Bind.bind, Except.bind]
  · intro a now e h
    simp [extract_metadata, h]
  · intro t now
    simp [extract_metadata, extract_metadata_body, pyGet, Bind.bind, Except.bind]

/-- C8 witness: a failing dataset source propagates its error; a non-dict
article makes `extract_metadata` raise. -/
theorem c8_two_tier_errors_witness :
    load_wikipedia_subset ⟨"wikimedia/wikipedia", "20220301.en", 1000⟩ none
        (fun _ _ _ => .error (.datasetError "connection reset")) =
      .error (.datasetError "connection reset")
    ∧ extract_metadata (.nonDict "int") "2023-01-01T00:00:00" =
      .error (.attributeError "int" "get") :=
  ⟨c8_two_tier_errors.1 ⟨"wikimedia/wikipedia", "20220301.en", 1000⟩ none
      (fun _ _ _ => .error (.datasetError "connection reset")) (.datasetError "connection reset") rfl,
    c8_two_tier_errors.2.2 "int" "2023-01-01T00:00:00"⟩

/-- C10: when the requested sample size exceeds the records available, the
out-of-range selection raises and the error propagates to the caller. -/
theorem c10_oversized_sample_raises (self : WikipediaDataExtractor) (N : Nat)
    (load_dataset : String → String → String → Except PyErr (List Article))
    (ds : List Article)
    (hsrc : load_dataset self.dataset_name self.subset "train" = .ok ds)
    (hlt : ds.length < N) :
    load_wikipedia_subset self (some N) load_dataset = .error .indexError := by
  simp [load_wikipedia_subset, hsrc, datasetSelect, Bind.bind, Except.bind,
    show ¬N ≤ ds.length from by omega]

/-- C10 witness: asking for 2 articles from a 1-article dataset. -/
theorem c10_oversized_sample_raises_witness :
    load_wikipedia_subset ⟨"wikimedia/wikipedia", "20220301.en", 1000⟩ (some 2)
        (fun _ _ _ => .ok [[("id", Json.str "1")]]) = .error .indexError :=
  c10_oversized_sample_raises ⟨"wikimedia/wikipedia", "20220301.en", 1000⟩ 2
    (fun _ _ _ => .ok [[("id", Json.str "1")]]) [[("id", Json.str "1")]] rfl (by decide)

/-- C5: with at least `N` records available from the source, loading with
sample size `N` returns exactly `N` records, the contiguous prefix of the
source in source order. -/
theorem c5_load_returns_prefix (self : WikipediaDataExtractor) (N : Nat)
    (load_dataset : String → String → String → Except PyErr (List Article))
    (ds : List Article)
    (hsrc : load_dataset self.dataset_name self.subset "train" = .ok ds)
    (hN : 0 < N) (hle : N ≤ ds.length) :
    load_wikipedia_subset self (some N) load_dataset = .ok (ds.take N)
    ∧ (ds.take N).length = N
    ∧ (∀ i, i < N → (ds.take N)[i]? = ds[i]?) := by
  refine ⟨?_, ?_, ?_⟩
  · simp [load_wikipedia_subset, hsrc, datasetSelect, Bind.bind, Except.bind, hle]
  · simp [List.length_take]; omega
  · intro i hi
    exact List.getElem?_take_of_lt hi

/-- C5 witness: loading 2 of 3 available articles. -/
theorem c5_load_returns_prefix_witness :
    load_wikipedia_subset ⟨"wikimedia/wikipedia", "20220301.en", 1000⟩ (some 2)
        (fun _ _ _ => .ok [[("id", Json.str "1")], [("id", Json.str "2")], [("id", Json.str "3")]])
      = .ok [[("id", Json.str "1")], [("id", Json.str "2")]] := by
  have h := c5_load_returns_prefix ⟨"wikimedia/wikipedia", "20220301.en", 1000⟩ 2
    (fun _ _ _ => .ok [[("id", Json.str "1")], [("id", Json.str "2")], [("id", Json.str "3")]])
    [[("id", Json.str "1")], [("id", Json.str "2")], [("id", Json.str "3")]]
    rfl (by decide) (by decide)
  exact h.1

/-- C2: the save operation only ever returns a boolean, and any exception
raised inside its `try` block (connection, existence check, creation,
blob-name computation, serialization, upload) is converted to `False`. -/
theorem c2_save_errors_become_false (env : Env) (self : WikipediaDataExtractor)
    (article : PyVal) (container_name? : Option String) (st : BlobStore) (f : StorageFaults) :
    ((save_to_blob_storage env self article container_name? st f).ok = true
      ∨ (save_to_blob_storage env self article container_name? st f).ok = false)
    ∧ (∀ cs e, env.get "AZURE_STORAGE_CONNECTION_STRING" = some cs → cs ≠ "" →
        (saveTry article
            (container_name?.getD ((env.get "AZURE_STORAGE_CONTAINER_NAME").getD "wikipedia-raw"))
            cs st f).err = some e →
        (save_to_blob_storage env self article container_name? st f).ok = false) := by
  constructor
  · cases h : (save_to_blob_storage env self article container_name? st f).ok
    · exact Or.inr rfl
    · exact Or.inl rfl
  · intro cs e hcs hne herr
    simp [save_to_blob_storage, hcs, hne, herr]

/-- C2 witness: a failing upload call is converted to a `False` return. -/
theorem c2_save_errors_become_false_witness :
    (save_to_blob_storage ⟨[("AZURE_STORAGE_CONNECTION_STRING", "cs")]⟩
        ⟨"wikimedia/wikipedia", "20220301.en", 1000⟩ (.dict [("id", Json.str "1")]) none ⟨[]⟩
        ⟨false, false, false, true⟩).ok = false :=
  (c2_save_errors_become_false ⟨[("AZURE_STORAGE_CONNECTION_STRING", "cs")]⟩
      ⟨"wikimedia/wikipedia", "20220301.en", 1000⟩ (.dict [("id", Json.str "1")]) none ⟨[]⟩
      ⟨false, false, false, true⟩).2 "cs" (.storageError "upload_blob")
    (by decide) (by decide) (by decide)

/-- C1 counterexample: the connection string used by the save operation is
the call-time environment's, not the one captured at construction.  With the
same extractor constructed under an environment holding a connection string,
saving under an environment without one fails with no storage call, while
saving under the construction-time environment succeeds. -/
theorem c1_call_time_env_counterexample :
    WikipediaDataExtractor.init
        ⟨[("AZURE_STORAGE_CONNECTION_STRING", "UseDevelopmentStorage=true")]⟩
      = .ok ⟨"wikimedia/wikipedia", "20220301.en", 1000⟩
    ∧ save_to_blob_storage ⟨[]⟩ ⟨"wikimedia/wikipedia", "20220301.en", 1000⟩
        (.dict [("id", Json.str "1"), ("title", Json.str "T")]) none ⟨[]⟩ noFaults
      = ⟨false, ⟨[]⟩, []⟩
    ∧ (save_to_blob_storage ⟨[("AZURE_STORAGE_CONNECTION_STRING", "UseDevelopmentStorage=true")]⟩
        ⟨"wikimedia/wikipedia", "20220301.en", 1000⟩
        (.dict [("id", Json.str "1"), ("title", Json.str "T")]) none ⟨[]⟩ noFaults).ok = true := by
  refine ⟨by decide, by decide, by decide⟩

/-- C1 amended: dataset name, subset and sample size are captured at
construction; the save operation reads the container-name default and the
connection string from the call-time environment only — its result does not
depend on the constructed extractor at all. -/
theorem c1_amended_config_capture :
    (∀ (env : Env) (e1 e2 : WikipediaDataExtractor) (article : PyVal)
        (container_name? : Option String) (st : BlobStore) (f : StorageFaults),
      save_to_blob_storage env e1 article container_name? st f
        = save_to_blob_storage env e2 article container_name? st f)
    ∧ (∀ (envC : Env) (ex : WikipediaDataExtractor),
        WikipediaDataExtractor.init envC = .ok ex →
        ex.dataset_name = (envC.get "WIKIPEDIA_DATASET_NAME").getD "wikimedia/wikipedia"
        ∧ ex.subset = (envC.get "WIKIPEDIA_SUBSET").getD "20220301.en"
        ∧ some ex.sample_size = pyNat? ((envC.get "WIKIPEDIA_SAMPLE_SIZE").getD "1000")) := by
  constructor
  · intro env e1 e2 article container_name? st f
    rfl
  · intro envC ex h
    obtain ⟨ed, es, en⟩ := ex
    simp only [WikipediaDataExtractor.init] at h
    cases hn : pyNat? ((envC.get "WIKIPEDIA_SAMPLE_SIZE").getD "1000") with
    | some n =>
      rw [hn] at h
      simp only [Except.ok.injEq, WikipediaDataExtractor.mk.injEq] at h
      obtain ⟨h1, h2, h3⟩ := h
      exact ⟨h1.symm, h2.symm, by simp [h3]⟩
    | none =>
      rw [hn] at h
      simp at h

/-- C1 amended witness: save ignores the extractor; a default-constructed
extractor captures the documented defaults. -/
theorem c1_amended_config_capture_witness :
    save_to_blob_storage ⟨[]⟩ ⟨"a", "b", 1⟩ (.dict []) none ⟨[]⟩ noFaults
      = save_to_blob_storage ⟨[]⟩ ⟨"c", "d", 2⟩ (.dict []) none ⟨[]⟩ noFaults
    ∧ ((⟨"wikimedia/wikipedia", "20220301.en", 1000⟩ : WikipediaDataExtractor).dataset_name
        = (Env.get ⟨[]⟩ "WIKIPEDIA_DATASET_NAME").getD "wikimedia/wikipedia"
      ∧ (⟨"wikimedia/wikipedia", "20220301.en", 1000⟩ : WikipediaDataExtractor).subset
        = (Env.get ⟨[]⟩ "WIKIPEDIA_SUBSET").getD "20220301.en"
      ∧ some (⟨"wikimedia/wikipedia", "20220301.en", 1000⟩ : WikipediaDataExtractor).sample_size
        = pyNat? ((Env.get ⟨[]⟩ "WIKIPEDIA_SAMPLE_SIZE").getD "1000")) :=
  ⟨c1_amended_config_capture.1 ⟨[]⟩ ⟨"a", "b", 1⟩ ⟨"c", "d", 2⟩ (.dict []) none ⟨[]⟩ noFaults,
   c1_amended_config_capture.2 ⟨[]⟩ ⟨"wikimedia/wikipedia", "20220301.en", 1000⟩ (by decide)⟩

/-- C7: with a configured connection string and all storage calls
succeeding, saving an article record (title a string when present, distinct
keys as in any Python dict) returns `True`, the payload stored under the
computed blob name in the destination container is exactly
`json.dumps(article, ensure_ascii=False)`, parsing that payload yields the
article back, and the serializer emits every non-ASCII character
literally. -/
theorem c7_save_roundtrip (env : Env) (self : WikipediaDataExtractor) (m : Article)
    (container_name? : Option String) (st : BlobStore) (cs : String)
    (hcs : env.get "AZURE_STORAGE_CONNECTION_STRING" = some cs) (hne : cs ≠ "")
    (ht : m.lookup "title" = none ∨ ∃ s, m.lookup "title" = some (.str s))
    (hnd : (m.map Prod.fst).Nodup) :
    (save_to_blob_storage env self (.dict m) container_name? st noFaults).ok = true
    ∧ (∃ bn, blobNameOf (.dict m) = .ok bn
        ∧ (save_to_blob_storage env self (.dict m) container_name? st noFaults).store.getBlob
            (container_name?.getD ((env.get "AZURE_STORAGE_CONTAINER_NAME").getD "wikipedia-raw"))
            bn
          = some (json_dumps m))
    ∧ json_loads (json_dumps m) = some m
    ∧ (∀ ch : Char, 128 ≤ ch.toNat → escChar ch = [ch]) := by
  obtain ⟨bn, hbn⟩ : ∃ bn, blobNameOf (.dict m) = .ok bn := by
    rcases ht with ht | ⟨s, ht⟩ <;>
      simp [blobNameOf, pyGet, ht, Bind.bind, Except.bind, pure, Except.pure]
  have hdump : pyvalDumps (.dict m) = .ok (json_dumps m) := rfl
  obtain ⟨herr, hstore⟩ := saveTry_noFaults (.dict m)
    (container_name?.getD ((env.get "AZURE_STORAGE_CONTAINER_NAME").getD "wikipedia-raw"))
    cs st bn (json_dumps m) hbn hdump
  have hsave : save_to_blob_storage env self (.dict m) container_name? st noFaults
      = ⟨true,
          (saveTry (.dict m)
            (container_name?.getD ((env.get "AZURE_STORAGE_CONTAINER_NAME").getD "wikipedia-raw"))
            cs st noFaults).store,
          (saveTry (.dict m)
            (container_name?.getD ((env.get "AZURE_STORAGE_CONTAINER_NAME").getD "wikipedia-raw"))
            cs st noFaults).calls⟩ := by
    simp [save_to_blob_storage, hcs, hne, herr]
  refine ⟨by rw [hsave], ⟨bn, hbn, ?_⟩, json_loads_json_dumps m,
    fun ch hch => escChar_nonascii ch hch⟩
  rw [hsave, hstore]
  apply getBlob_upload
  by_cases hc : st.hasContainer
    (container_name?.getD ((env.get "AZURE_STORAGE_CONTAINER_NAME").getD "wikipedia-raw"))
  · simp [hc]
  · simp [hc, hasContainer_createContainer]

/-- C7 witness: a concrete save of an article with non-ASCII characters. -/
theorem c7_save_roundtrip_witness :
    (save_to_blob_storage ⟨[("AZURE_STORAGE_CONNECTION_STRING", "cs")]⟩
        ⟨"wikimedia/wikipedia", "20220301.en", 1000⟩
        (.dict [("id", Json.str "12"), ("title", Json.str "Café älv"),
          ("categories", Json.arr ["Aé", "B"])])
        none ⟨[]⟩ noFaults).ok = true :=
  (c7_save_roundtrip ⟨[("AZURE_STORAGE_CONNECTION_STRING", "cs")]⟩
    ⟨"wikimedia/wikipedia", "20220301.en", 1000⟩
    [("id", Json.str "12"), ("title", Json.str "Café älv"), ("categories", Json.arr ["Aé", "B"])]
    none ⟨[]⟩ "cs" (by decide) (by decide)
    (Or.inr ⟨"Café älv", by decide⟩) (by decide)).1

/-- C9: blob naming is not injective: the articles with titles "A B" and
"A_B" (same id) differ but share the blob name "1-A_B.json", so saving the
second with overwrite enabled silently replaces the first's payload. -/
theorem c9_blob_name_collision :
    PyVal.dict [("id", Json.str "1"), ("title", Json.str "A B")]
      ≠ PyVal.dict [("id", Json.str "1"), ("title", Json.str "A_B")]
    ∧ blobNameOf (.dict [("id", Json.str "1"), ("title", Json.str "A B")])
      = blobNameOf (.dict [("id", Json.str "1"), ("title", Json.str "A_B")])
    ∧ blobNameOf (.dict [("id", Json.str "1"), ("title", Json.str "A B")]) = .ok "1-A_B.json"
    ∧ (save_to_blob_storage ⟨[("AZURE_STORAGE_CONNECTION_STRING", "cs")]⟩
        ⟨"wikimedia/wikipedia", "20220301.en", 1000⟩
        (.dict [("id", Json.str "1"), ("title", Json.str "A B")]) none ⟨[]⟩ noFaults).ok = true
    ∧ (save_to_blob_storage ⟨[("AZURE_STORAGE_CONNECTION_STRING", "cs")]⟩
        ⟨"wikimedia/wikipedia", "20220301.en", 1000⟩
        (.dict [("id", Json.str "1"), ("title", Json.str "A_B")]) none
        (save_to_blob_storage ⟨[("AZURE_STORAGE_CONNECTION_STRING", "cs")]⟩
          ⟨"wikimedia/wikipedia", "20220301.en", 1000⟩
          (.dict [("id", Json.str "1"), ("title", Json.str "A B")]) none ⟨[]⟩ noFaults).store
        noFaults).ok = true
    ∧ (save_to_blob_storage ⟨[("AZURE_STORAGE_CONNECTION_STRING", "cs")]⟩
        ⟨"wikimedia/wikipedia", "20220301.en", 1000⟩
        (.dict [("id", Json.str "1"), ("title", Json.str "A_B")]) none
        (save_to_blob_storage ⟨[("AZURE_STORAGE_CONNECTION_STRING", "cs")]⟩
          ⟨"wikimedia/wikipedia", "20220301.en", 1000⟩
          (.dict [("id", Json.str "1"), ("title", Json.str "A B")]) none ⟨[]⟩ noFaults).store
        noFaults).store.getBlob "wikipedia-raw" "1-A_B.json"
      = some (json_dumps [("id", Json.str "1"), ("title", Json.str "A_B")])
    ∧ json_dumps [("id", Json.str "1"), ("title", Json.str "A B")]
      ≠ json_dumps [("id", Json.str "1"), ("title", Json.str "A_B")] := by
  refine ⟨by decide, by decide, by decide, by decide, by decide, by decide, by decide⟩
